import Mathlib

/-!
Verification of `mat_to_hdf5.py`, a converter of MATLAB `.mat` containers to
HDF5 files.  The source container is modelled as an ordered association list
from keys to Python values; the destination HDF5 file is modelled as the
ordered list of datasets created in it, together with the list of printed
diagnostics and a flag recording whether an uncaught exception aborted the
conversion of the file.
-/

namespace MatToHdf5

/-- A top-level value of a loaded `.mat` container (a Python value as produced
by `scipy.io.loadmat`).  `objArr` is an `np.ndarray` of `dtype=object` whose
elements are Python values themselves; `numArr` is a numeric `np.ndarray`
carried as its shape and its flat element data; `sArr` is an `np.ndarray` of
bytes dtype (`S`); `uArr` is an `np.ndarray` of text dtype (`<U`); `strVal`
is a Python `str`; `intVal` is a numeric scalar (not an ndarray, not a str);
`pyNone` stands for any other non-array, non-string Python object. -/
inductive PyVal where
  | objArr (elems : List PyVal)
  | numArr (shape : List Nat) (data : List Int)
  | sArr (shape : List Nat) (data : List String)
  | uArr (shape : List Nat) (data : List String)
  | strVal (s : String)
  | intVal (n : Int)
  | pyNone

/-- A dataset value stored in the HDF5 destination file: a byte-string array
with its shape (from the re-encoding branch, or a bytes-dtype ndarray stored
verbatim), a numeric array stored verbatim, or a single byte string (from
`np.string_` on a scalar `str`). -/
inductive H5Val where
  | bytesArr (shape : List Nat) (items : List String)
  | numData (shape : List Nat) (data : List Int)
  | bytes (s : String)
deriving DecidableEq

/-- A Python exception escaping an operation: `ValueError` (which `main`
catches) or `TypeError` (which nothing catches). -/
inductive PyErr where
  | valueError (msg : String)
  | typeError (msg : String)
deriving DecidableEq

/-- Python `item[0]`: indexing the first element of a value.  `none` models a
raised exception (IndexError on an empty sequence, TypeError on a
non-subscriptable value).  For a multi-dimensional array the first slice is
returned; for a `str`, its first character (Python strings are
subscriptable). -/
def pyIndex0 : PyVal → Option PyVal
  | .objArr es => es.head?
  | .numArr [] _ => none
  | .numArr (n :: ds) d =>
      if n = 0 then none
      else if ds.isEmpty then (d.head?).map .intVal
      else some (.numArr ds (d.take ds.prod))
  | .sArr [] _ => none
  | .sArr (n :: ds) d =>
      if n = 0 then none
      else if ds.isEmpty then (d.head?).map .strVal
      else some (.sArr ds (d.take ds.prod))
  | .uArr [] _ => none
  | .uArr (n :: ds) d =>
      if n = 0 then none
      else if ds.isEmpty then (d.head?).map .strVal
      else some (.uArr ds (d.take ds.prod))
  | .strVal s => (s.toList.head?).map (fun c => .strVal (String.mk [c]))
  | .intVal _ => none
  | .pyNone => none

/-- Whether numpy can encode a text value to bytes: the text-to-bytes cast
uses the ascii codec and raises `UnicodeEncodeError` (a `ValueError`) on any
code point above 127. -/
def isAsciiStr (s : String) : Bool := s.toList.all (fun c => c.toNat < 128)

/-- The uniform element shape required by the numpy array builder: an empty
sequence gives the scalar sub-shape, a non-empty sequence must have all
elements of one shape; `none` models the inhomogeneous-shape `ValueError`. -/
def uniformShape : List (List Nat × List String) → Option (List Nat)
  | [] => some []
  | x :: xs => if xs.all (fun p => p.1 == x.1) then some x.1 else none

mutual

/-- One element under `np.array(..., dtype='S')`: its shape and its flattened
byte-string data.  A `str` must be ascii-encodable; a numeric scalar or array
converts to decimal byte strings; bytes arrays pass through; text arrays must
be ascii-encodable; a nested object array converts recursively when its
elements have a uniform shape.  `none` models the raised encoding error
(`UnicodeEncodeError`/`ValueError`, or the failure to convert an unsupported
object such as `None`). -/
def asBytesArray : PyVal → Option (List Nat × List String)
  | .strVal s => if isAsciiStr s then some ([], [s]) else none
  | .intVal n => some ([], [toString n])
  | .numArr sh d => some (sh, d.map (fun n => toString n))
  | .sArr sh d => some (sh, d)
  | .uArr sh d => if d.all isAsciiStr then some (sh, d) else none
  | .pyNone => none
  | .objArr es =>
      (asBytesList es).bind (fun shaped =>
        (uniformShape shaped).map (fun s0 =>
          (es.length :: s0, List.foldr (fun p acc => p.2 ++ acc) [] shaped)))

/-- `asBytesArray` over a list of elements, failing if any element fails. -/
def asBytesList : List PyVal → Option (List (List Nat × List String))
  | [] => some []
  | x :: xs => (asBytesArray x).bind (fun y => (asBytesList xs).map (fun l => y :: l))

end

/-- `np.array(items, dtype='S')` on a Python list: convert every element,
require a uniform element shape, and produce the stacked byte-string array
(shape `N :: s0` with the data concatenated in order). -/
def npArrayS (items : List PyVal) : Option (List Nat × List String) :=
  (asBytesList items).bind (fun shaped =>
    (uniformShape shaped).map (fun s0 =>
      (items.length :: s0, List.foldr (fun p acc => p.2 ++ acc) [] shaped)))

/-- `flat_list = [item[0] for item in arr]` (line 17 of the source): extract
the first element of every element of the array, failing if any extraction
raises. -/
def flattenFirst : List PyVal → Option (List PyVal)
  | [] => some []
  | x :: xs => (pyIndex0 x).bind (fun y => (flattenFirst xs).map (fun l => y :: l))

/-- `_convert_strings_to_utf8(arr)` (lines 13-19 of the source): flatten the
array of arrays by taking `item[0]` of each element, then re-encode the flat
list as a fixed-width byte-string array.  `none` models a raised
exception. -/
def convert_strings_to_utf8 (elems : List PyVal) : Option (List Nat × List String) :=
  (flattenFirst elems).bind npArrayS

/-- The three reserved metadata keys skipped by the conversion loop (line 27
of the source). -/
def reservedKeys : List String := ["__header__", "__version__", "__globals__"]

/-- `re.sub(r'\d+$', '', key)` (line 30 of the source): remove the maximal
trailing run of decimal digits from a key. -/
def stripTrailingDigits (s : String) : String :=
  String.mk ((s.toList.reverse.dropWhile Char.isDigit).reverse)

/-- The diagnostic printed when the UTF-8 conversion of an entry fails
(line 37 of the source): it names the (digit-stripped) key of the entry. -/
def diagMsg (key : String) : String :=
  "Could not convert " ++ key ++ " to UTF-8 strings"

/-- The observable outcome of converting one `.mat` container into one HDF5
file: the datasets created (in creation order), the diagnostics printed, and
the exception, if any, that escaped `convert_mat_to_hdf5` and aborted the
loop. -/
structure ConvResult where
  written : List (String × H5Val)
  log : List String
  err : Option PyErr
deriving DecidableEq

/-- Whether the conversion of the file ran to completion (no exception
escaped). -/
def ConvResult.ok (st : ConvResult) : Bool := st.err.isNone

/-- The message of the `ValueError` h5py raises when `create_dataset` is
given an empty name or a name that already exists (the two real messages
differ; the model does not distinguish them). -/
def h5CreateMsg : String := "Unable to create dataset"

/-- The message of the `UnicodeEncodeError` (a `ValueError`) numpy raises
when casting non-ascii text to bytes. -/
def asciiCodecMsg : String := "ascii codec cannot encode characters"

/-- The message of the `TypeError` h5py raises when given a text-dtype
(`<U`) ndarray, for which it has no conversion path. -/
def noConversionMsg : String := "No conversion path for dtype"

/-- `f.create_dataset(key, data=value)`: h5py refuses an empty dataset name
and a name that already exists (`none` models the raised `ValueError`). -/
def createDataset (written : List (String × H5Val)) (k : String) (v : H5Val) :
    Option (List (String × H5Val)) :=
  if k == "" then none
  else if written.any (fun p => p.1 == k) then none
  else some (written ++ [(k, v)])

/-- The body of the `for key, value in mat.items()` loop (lines 26-41 of the
source) for a single entry, acting on the datasets already written: returns
the new dataset list, the diagnostics printed for this entry, and the
exception, if any, escaping the entry.  The reserved-key test is on the
original key; digit stripping happens after it.  In the object-array branch
the `try` block covers both the byte-string conversion and the dataset
creation, so failures there are caught and printed.  In the other write
branch (any other ndarray, or a `str`) nothing is caught: a dataset-creation
failure propagates as a `ValueError`, `np.string_` on non-ascii text raises
`UnicodeEncodeError` (a `ValueError`), and a text-dtype ndarray makes h5py
raise an uncaught `TypeError`. -/
def entryAction (written : List (String × H5Val)) (key : String) (value : PyVal) :
    List (String × H5Val) × List String × Option PyErr :=
  if key ∈ reservedKeys then (written, [], none)
  else
    match value with
    | .objArr elems =>
        match convert_strings_to_utf8 elems with
        | some bs =>
            match createDataset written (stripTrailingDigits key) (.bytesArr bs.1 bs.2) with
            | some w => (w, [], none)
            | none => (written, [diagMsg (stripTrailingDigits key)], none)
        | none => (written, [diagMsg (stripTrailingDigits key)], none)
    | .numArr sh d =>
        match createDataset written (stripTrailingDigits key) (.numData sh d) with
        | some w => (w, [], none)
        | none => (written, [], some (.valueError h5CreateMsg))
    | .sArr sh d =>
        match createDataset written (stripTrailingDigits key) (.bytesArr sh d) with
        | some w => (w, [], none)
        | none => (written, [], some (.valueError h5CreateMsg))
    | .uArr _ _ => (written, [], some (.typeError noConversionMsg))
    | .strVal s =>
        if isAsciiStr s then
          match createDataset written (stripTrailingDigits key) (.bytes s) with
          | some w => (w, [], none)
          | none => (written, [], some (.valueError h5CreateMsg))
        else (written, [], some (.valueError asciiCodecMsg))
    | _ => (written, [], none)

/-- One step of the conversion loop: once an exception has aborted the loop
(`err` is set) no further entry is processed; otherwise the entry is
processed and its diagnostics appended to the log. -/
def processEntry (st : ConvResult) (kv : String × PyVal) : ConvResult :=
  if st.ok then
    ⟨(entryAction st.written kv.1 kv.2).1,
     st.log ++ (entryAction st.written kv.1 kv.2).2.1,
     (entryAction st.written kv.1 kv.2).2.2⟩
  else st

/-- `convert_mat_to_hdf5(output_name, mat)` (lines 21-41 of the source):
convert one loaded `.mat` container, starting from a freshly created empty
HDF5 file.  The `with` block closes the file on every exit path, so on an
abort the datasets written so far remain in the file. -/
def convert_mat_to_hdf5 (mat : List (String × PyVal)) : ConvResult :=
  mat.foldl processEntry ⟨[], [], none⟩

/-! ### Source selection and orchestration (lines 43-95 of the source) -/

/-- The filesystem as seen by `get_mat_files`: existence, file/directory
tests and directory listing. -/
structure FS where
  pathExists : String → Bool
  isFile : String → Bool
  isDir : String → Bool
  listDir : String → List String

/-- A loader standing for `scipy.io.loadmat`: maps a path to the loaded
container. -/
def LoadMat := String → List (String × PyVal)

/-- `str.endswith(t)` on a string `s`. -/
def endsWithS (s t : String) : Bool :=
  let a := s.toList
  let b := t.toList
  if b.length ≤ a.length then a.drop (a.length - b.length) == b else false

/-- `os.path.basename`: the part of the path after the last slash. -/
def basename (p : String) : String :=
  String.mk ((p.toList.reverse.takeWhile (fun c => c ≠ '/')).reverse)

/-- The root part of `os.path.splitext`: drop the extension starting at the
last dot, except that a run of leading dots never starts an extension. -/
def splitextRoot (name : String) : String :=
  let l := name.toList
  let pre := l.takeWhile (fun c => c = '.')
  let rest := l.drop pre.length
  if rest.any (fun c => c = '.') then
    String.mk (pre ++ ((rest.reverse.dropWhile (fun c => c ≠ '.')).reverse).dropLast)
  else name

/-- `os.path.join` for a relative second component. -/
def joinPath (a b : String) : String := a ++ "/" ++ b

/-- `re.match(r'(song[0-9][0-9]_Imputed)(\.mat$)', file_name)` (line 57 of
the source): the whole name must be `songNN_Imputed.mat` with `NN` two ASCII
digits; group 1 is `songNN_Imputed`. -/
def matchSongName (fn : String) : Option String :=
  let l := fn.toList
  if l.length = 18 && l.take 4 == "song".toList &&
      ((l.drop 4).take 2).all Char.isDigit && l.drop 6 == "_Imputed.mat".toList
  then some (String.mk (l.take 14)) else none

/-- The candidate list built by `get_mat_files` (lines 50-60 of the source):
a single `.mat` file gives a one-element list named by its base name without
extension; a directory is scanned for files ending in `Imputed.mat` that
match the `songNN_Imputed.mat` pattern; any other existing path gives an
empty list. -/
def selectFiles (fs : FS) (lm : LoadMat) (source : String) :
    List (String × List (String × PyVal)) :=
  if fs.isFile source && endsWithS source ".mat" then
    [(splitextRoot (basename source), lm source)]
  else if fs.isDir source then
    (fs.listDir source).filterMap (fun fn =>
      if endsWithS fn "Imputed.mat" then
        (matchSongName fn).map (fun name => (name, lm (joinPath source fn)))
      else none)
  else []

/-- The message of the `ValueError` raised when the source path does not
exist (line 48 of the source). -/
def notFoundMsg : String := "File or path does not exist"

/-- The message of the `ValueError` raised when no valid `.mat` files are
found (line 62 of the source). -/
def noInputMsg : String := "No valid .mat files found in the specified source."

/-- `get_mat_files(source)` (lines 43-63 of the source): raise (`.error`)
when the path does not exist or when no matching input files were found,
otherwise return the loaded files. -/
def get_mat_files (fs : FS) (lm : LoadMat) (source : String) :
    Except String (List (String × List (String × PyVal))) :=
  if fs.pathExists source then
    if (selectFiles fs lm source).isEmpty then .error noInputMsg
    else .ok (selectFiles fs lm source)
  else .error notFoundMsg

/-- `mat_to_hdf5(mat_files, destination)` (lines 65-74 of the source):
convert each file in order into `destination/<name>.hdf5`; an exception
escaping one conversion stops the loop and propagates (the second component).
Destination-directory creation is a filesystem side effect with no
observable state here. -/
def mat_to_hdf5 (destination : String) :
    List (String × List (String × PyVal)) → List (String × ConvResult) × Option PyErr
  | [] => ([], none)
  | f :: rest =>
      if (convert_mat_to_hdf5 f.2).ok then
        ((joinPath destination (f.1 ++ ".hdf5"), convert_mat_to_hdf5 f.2)
            :: (mat_to_hdf5 destination rest).1,
          (mat_to_hdf5 destination rest).2)
      else ([(joinPath destination (f.1 ++ ".hdf5"), convert_mat_to_hdf5 f.2)],
        (convert_mat_to_hdf5 f.2).err)

/-- The observable outcome of one run of `main`: the destination files
written (path and content), the lines printed, and whether the run died with
an uncaught exception (a traceback) instead of returning normally. -/
structure RunResult where
  writtenFiles : List (String × ConvResult)
  output : List String
  crashed : Bool
deriving DecidableEq

/-- `main()` (lines 88-95 of the source): select the sources, convert them,
and catch `ValueError` at the outermost level, printing it as a single
`Error: <message>` line and returning normally.  Any other exception (e.g.
the `TypeError` from a text-dtype ndarray) is uncaught and crashes the
run. -/
def main (fs : FS) (lm : LoadMat) (source destination : String) : RunResult :=
  match get_mat_files fs lm source with
  | .error msg => ⟨[], ["Error: " ++ msg], false⟩
  | .ok files =>
      match (mat_to_hdf5 destination files).2 with
      | none => ⟨(mat_to_hdf5 destination files).1,
          ["Conversion completed successfully."], false⟩
      | some (.valueError m) => ⟨(mat_to_hdf5 destination files).1,
          ["Error: " ++ m], false⟩
      | some (.typeError _) => ⟨(mat_to_hdf5 destination files).1, [], true⟩

/-- The values not covered by either branch of the conversion loop: neither
an ndarray (of any dtype — object, numeric, bytes or text) nor a `str`.
Entries with such values fall through the `if`/`elif` chain (lines 32-41 of
the source) with no effect. -/
def unrecognizedVal : PyVal → Bool
  | .objArr _ => false
  | .numArr _ _ => false
  | .sArr _ _ => false
  | .uArr _ _ => false
  | .strVal _ => false
  | .intVal _ => true
  | .pyNone => true

/-- The source container of the worked scenario of the specification:
`{"__header__": ..., "song01": [[1.0,2.0],[3.0,4.0]],
"song01Name1": [["alpha"],["beta"]]}`. -/
def scenarioC2 : List (String × PyVal) :=
  [("__header__", PyVal.pyNone),
   ("song01", PyVal.numArr [2, 2] [1, 2, 3, 4]),
   ("song01Name1", PyVal.objArr [PyVal.objArr [PyVal.strVal "alpha"],
                                 PyVal.objArr [PyVal.strVal "beta"]])]

/-- A filesystem on which no path exists, exercising the missing-path
failure of `get_mat_files`. -/
def fsMissing : FS := ⟨fun _ => false, fun _ => false, fun _ => false, fun _ => []⟩

/-- A filesystem on which every path is an empty directory, exercising the
no-input failure of `get_mat_files`. -/
def fsEmptyDir : FS := ⟨fun _ => true, fun _ => false, fun _ => true, fun _ => []⟩

/-- A loader that returns an empty container for every path. -/
def lmEmpty : LoadMat := fun _ => []

/-! ### General lemmas about the conversion loop -/

theorem processEntry_of_not_ok (st : ConvResult) (kv : String × PyVal) (h : st.ok = false) :
    processEntry st kv = st := by
  simp [processEntry, h]

theorem foldl_of_not_ok (l : List (String × PyVal)) (st : ConvResult) (h : st.ok = false) :
    List.foldl processEntry st l = st := by
  induction l with
  | nil => rfl
  | cons kv tl ih => rw [List.foldl_cons, processEntry_of_not_ok st kv h]; exact ih

theorem ok_of_foldl_ok (l : List (String × PyVal)) (st : ConvResult)
    (h : (List.foldl processEntry st l).ok = true) : st.ok = true := by
  cases hok : st.ok with
  | true => rfl
  | false => rw [foldl_of_not_ok l st hok] at h; rw [hok] at h; exact h

theorem createDataset_some (w : List (String × H5Val)) (k : String) (v : H5Val)
    (w2 : List (String × H5Val)) (h : createDataset w k v = some w2) :
    w2 = w ++ [(k, v)] := by
  unfold createDataset at h
  split at h
  · exact absurd h (by simp)
  · split at h
    · exact absurd h (by simp)
    · exact (Option.some.inj h).symm

theorem entryAction_written_cases (w : List (String × H5Val)) (key : String) (v : PyVal) :
    (entryAction w key v).1 = w ∨
      (key ∉ reservedKeys ∧
        ∃ hv, (entryAction w key v).1 = w ++ [(stripTrailingDigits key, hv)]) := by
  unfold entryAction
  split
  · exact Or.inl rfl
  · next hk =>
    cases v with
    | objArr elems =>
        cases hc : convert_strings_to_utf8 elems with
        | none => simp [hc]
        | some bs =>
            simp only [hc]
            cases hcd : createDataset w (stripTrailingDigits key) (.bytesArr bs.1 bs.2) with
            | none => simp [hcd]
            | some w2 =>
                simp only [hcd]
                exact Or.inr ⟨hk, _, createDataset_some _ _ _ _ hcd⟩
    | numArr sh d =>
        cases hcd : createDataset w (stripTrailingDigits key) (.numData sh d) with
        | none => simp [hcd]
        | some w2 =>
            simp only [hcd]
            exact Or.inr ⟨hk, _, createDataset_some _ _ _ _ hcd⟩
    | sArr sh d =>
        cases hcd : createDataset w (stripTrailingDigits key) (.bytesArr sh d) with
        | none => simp [hcd]
        | some w2 =>
            simp only [hcd]
            exact Or.inr ⟨hk, _, createDataset_some _ _ _ _ hcd⟩
    | uArr sh d => exact Or.inl rfl
    | strVal s =>
        cases ha : isAsciiStr s with
        | false => simp [ha]
        | true =>
            simp only [ha, if_true]
            cases hcd : createDataset w (stripTrailingDigits key) (.bytes s) with
            | none => simp [hcd]
            | some w2 =>
                simp only [hcd]
                exact Or.inr ⟨hk, _, createDataset_some _ _ _ _ hcd⟩
    | intVal n => exact Or.inl rfl
    | pyNone => exact Or.inl rfl

theorem mem_written_entryAction (w : List (String × H5Val)) (key : String) (v : PyVal)
    (x : String × H5Val) (h : x ∈ w) : x ∈ (entryAction w key v).1 := by
  rcases entryAction_written_cases w key v with he | ⟨_, hv, he⟩ <;> rw [he]
  · exact h
  · exact List.mem_append_left _ h

theorem mem_written_processEntry (st : ConvResult) (kv : String × PyVal)
    (x : String × H5Val) (h : x ∈ st.written) : x ∈ (processEntry st kv).written := by
  cases hok : st.ok with
  | false => rw [processEntry_of_not_ok st kv hok]; exact h
  | true =>
      simp only [processEntry, hok, if_true]
      exact mem_written_entryAction _ _ _ _ h

theorem mem_written_foldl (l : List (String × PyVal)) (st : ConvResult)
    (x : String × H5Val) (h : x ∈ st.written) :
    x ∈ (List.foldl processEntry st l).written := by
  induction l generalizing st with
  | nil => exact h
  | cons kv tl ih =>
      rw [List.foldl_cons]
      exact ih (processEntry st kv) (mem_written_processEntry st kv x h)

theorem written_provenance_step (st : ConvResult) (kv : String × PyVal) (k : String)
    (v : H5Val) (h : (k, v) ∈ (processEntry st kv).written) :
    (k, v) ∈ st.written ∨ (kv.1 ∉ reservedKeys ∧ k = stripTrailingDigits kv.1) := by
  cases hok : st.ok with
  | false => rw [processEntry_of_not_ok st kv hok] at h; exact Or.inl h
  | true =>
      simp only [processEntry, hok, if_true] at h
      rcases entryAction_written_cases st.written kv.1 kv.2 with he | ⟨hk, hv, he⟩
      · rw [he] at h; exact Or.inl h
      · rw [he] at h
        rcases List.mem_append.mp h with h1 | h1
        · exact Or.inl h1
        · have := List.mem_singleton.mp h1
          exact Or.inr ⟨hk, congrArg Prod.fst this⟩

theorem written_provenance (l : List (String × PyVal)) (st : ConvResult) (k : String)
    (v : H5Val) (h : (k, v) ∈ (List.foldl processEntry st l).written) :
    (k, v) ∈ st.written ∨ ∃ kv0 ∈ l, kv0.1 ∉ reservedKeys ∧ k = stripTrailingDigits kv0.1 := by
  induction l generalizing st with
  | nil => exact Or.inl h
  | cons hd tl ih =>
      rw [List.foldl_cons] at h
      rcases ih (processEntry st hd) h with h1 | ⟨kv0, hm, hp⟩
      · rcases written_provenance_step st hd k v h1 with h2 | hp
        · exact Or.inl h2
        · exact Or.inr ⟨hd, List.mem_cons_self _ _, hp⟩
      · exact Or.inr ⟨kv0, List.mem_cons_of_mem _ hm, hp⟩

theorem entryAction_numArr (w : List (String × H5Val)) (key : String) (sh : List Nat)
    (d : List Int) (hk : key ∉ reservedKeys) :
    entryAction w key (PyVal.numArr sh d)
        = (w, [], some (PyErr.valueError h5CreateMsg)) ∨
    entryAction w key (PyVal.numArr sh d)
      = (w ++ [(stripTrailingDigits key, H5Val.numData sh d)], [], none) := by
  unfold entryAction
  rw [if_neg hk]
  cases hcd : createDataset w (stripTrailingDigits key) (.numData sh d) with
  | none => simp [hcd]
  | some w2 => rw [createDataset_some _ _ _ _ hcd] at hcd; simp [hcd]

theorem convert_singleton_numArr (key : String) (sh : List Nat) (d : List Int)
    (hk : key ∉ reservedKeys) (hne : stripTrailingDigits key ≠ "") :
    convert_mat_to_hdf5 [(key, PyVal.numArr sh d)] =
      ⟨[(stripTrailingDigits key, H5Val.numData sh d)], [], none⟩ := by
  unfold convert_mat_to_hdf5
  rw [List.foldl_cons, List.foldl_nil]
  simp [processEntry, ConvResult.ok, entryAction, createDataset, hk, hne]

theorem convert_singleton_numArr_empty (key : String) (sh : List Nat) (d : List Int)
    (hk : key ∉ reservedKeys) (he : stripTrailingDigits key = "") :
    convert_mat_to_hdf5 [(key, PyVal.numArr sh d)]
      = ⟨[], [], some (PyErr.valueError h5CreateMsg)⟩ := by
  unfold convert_mat_to_hdf5
  rw [List.foldl_cons, List.foldl_nil]
  simp [processEntry, ConvResult.ok, entryAction, createDataset, hk, he]

/-! ### Characterization of the trailing-digit strip -/

theorem string_mk_toList (s : String) : String.mk s.toList = s := rfl

theorem stripTrailingDigits_toList (s : String) (u t : List Char)
    (hs : s.toList = u ++ t) (ht : ∀ c ∈ t, Char.isDigit c = true)
    (hu : ∀ c ∈ u.getLast?, Char.isDigit c = false) :
    (stripTrailingDigits s).toList = u := by
  have hrepr : (stripTrailingDigits s).toList
      = (s.toList.reverse.dropWhile Char.isDigit).reverse := rfl
  rw [hrepr, hs, List.reverse_append]
  rw [List.dropWhile_append_of_pos (fun a ha => ht a (List.mem_reverse.mp ha))]
  have hdrop : u.reverse.dropWhile Char.isDigit = u.reverse := by
    cases h : u.reverse with
    | nil => rfl
    | cons x xs =>
        have hx : x ∈ u.getLast? := by
          rw [Option.mem_def, ← List.head?_reverse, h]; rfl
        rw [List.dropWhile_cons_of_neg]
        simp [hu x hx]
  rw [hdrop, List.reverse_reverse]

theorem stripTrailingDigits_eq (s : String) (u t : List Char)
    (hs : s.toList = u ++ t) (ht : ∀ c ∈ t, Char.isDigit c = true)
    (hu : ∀ c ∈ u.getLast?, Char.isDigit c = false) :
    stripTrailingDigits s = String.mk u := by
  rw [← string_mk_toList (stripTrailingDigits s),
      stripTrailingDigits_toList s u t hs ht hu]

/-! ### Behaviour of single entry kinds -/

theorem c5_gen (l : List (String × PyVal)) (st : ConvResult) (k0 : String) (sh : List Nat)
    (d : List Int) (hmem : (k0, PyVal.numArr sh d) ∈ l) (hk : k0 ∉ reservedKeys)
    (hok : (List.foldl processEntry st l).ok = true) :
    (stripTrailingDigits k0, H5Val.numData sh d) ∈ (List.foldl processEntry st l).written := by
  induction l generalizing st with
  | nil => cases hmem
  | cons hd tl ih =>
      rw [List.foldl_cons] at hok ⊢
      rcases List.mem_cons.mp hmem with heq | hmem2
      · subst heq
        have h1 := ok_of_foldl_ok tl _ hok
        have hst : st.ok = true := by
          cases hstv : st.ok with
          | true => rfl
          | false =>
              rw [processEntry_of_not_ok st _ hstv] at h1
              rw [hstv] at h1; exact h1
        have hpe : processEntry st (k0, PyVal.numArr sh d) =
            ⟨(entryAction st.written k0 (PyVal.numArr sh d)).1,
             st.log ++ (entryAction st.written k0 (PyVal.numArr sh d)).2.1,
             (entryAction st.written k0 (PyVal.numArr sh d)).2.2⟩ := by
          simp [processEntry, hst]
        rcases entryAction_numArr st.written k0 sh d hk with he | he
        · rw [hpe] at h1
          simp [he, ConvResult.ok] at h1
        · apply mem_written_foldl
          rw [hpe]
          simp [he]
      · exact ih (processEntry st hd) hmem2 hok

theorem flattenFirst_wrapped (ss : List String) :
    flattenFirst (ss.map (fun s => PyVal.objArr [PyVal.strVal s]))
      = some (ss.map PyVal.strVal) := by
  induction ss with
  | nil => rfl
  | cons s tl ih => simp [flattenFirst, pyIndex0, ih]

theorem asBytesList_strVal (ss : List String) (h : ∀ s ∈ ss, isAsciiStr s = true) :
    asBytesList (ss.map PyVal.strVal)
      = some (ss.map (fun s => (([] : List Nat), [s]))) := by
  induction ss with
  | nil => rfl
  | cons s tl ih =>
      have hs := h s (List.mem_cons_self _ _)
      have htl := ih (fun x hx => h x (List.mem_cons_of_mem _ hx))
      simp [asBytesList, asBytesArray, hs, htl]

theorem uniformShape_scalars (l : List String) :
    uniformShape (l.map (fun s => (([] : List Nat), [s]))) = some [] := by
  cases l with
  | nil => rfl
  | cons x xs => simp [uniformShape]

theorem foldr_concat_singletons (ss : List String) :
    List.foldr (fun p acc => p.2 ++ acc) []
        (ss.map (fun s => (([] : List Nat), [s]))) = ss := by
  induction ss with
  | nil => rfl
  | cons s tl ih => simp [ih]

theorem npArrayS_strVal (ss : List String) (h : ∀ s ∈ ss, isAsciiStr s = true) :
    npArrayS (ss.map PyVal.strVal) = some ([ss.length], ss) := by
  unfold npArrayS
  rw [asBytesList_strVal ss h]
  simp [uniformShape_scalars ss, foldr_concat_singletons ss]

theorem entryAction_unrecognized (w : List (String × H5Val)) (key : String) (v : PyVal)
    (h : unrecognizedVal v = true) : entryAction w key v = (w, [], none) := by
  cases v with
  | objArr elems => exact absurd h (by simp [unrecognizedVal])
  | numArr sh d => exact absurd h (by simp [unrecognizedVal])
  | sArr sh d => exact absurd h (by simp [unrecognizedVal])
  | uArr sh d => exact absurd h (by simp [unrecognizedVal])
  | strVal s => exact absurd h (by simp [unrecognizedVal])
  | intVal n => unfold entryAction; split <;> rfl
  | pyNone => unfold entryAction; split <;> rfl

theorem processEntry_unrecognized (st : ConvResult) (key : String) (v : PyVal)
    (h : unrecognizedVal v = true) : processEntry st (key, v) = st := by
  obtain ⟨w, lg, b⟩ := st
  cases b with
  | some e => exact processEntry_of_not_ok _ _ rfl
  | none => simp [processEntry, ConvResult.ok, entryAction_unrecognized w key v h]

theorem mat_to_hdf5_dest_invariant (files : List (String × List (String × PyVal)))
    (d1 d2 : String) :
    (mat_to_hdf5 d1 files).1.map (fun p => p.2) = (mat_to_hdf5 d2 files).1.map (fun p => p.2)
      ∧ (mat_to_hdf5 d1 files).2 = (mat_to_hdf5 d2 files).2 := by
  induction files with
  | nil => exact ⟨rfl, rfl⟩
  | cons f rest ih =>
      unfold mat_to_hdf5
      cases hok : (convert_mat_to_hdf5 f.2).ok with
      | true => simp [hok, ih.1, ih.2]
      | false => simp [hok]

/-! ### The claims -/

/-- C1 (amended): every key written to the destination equals some
non-reserved source key with its trailing run of decimal digits removed.
(The original claim's second half — that a reserved metadata name never
appears as a destination key — fails, see the counterexample: a source key
such as `__header__1` strips to a reserved name and is written.) -/
theorem c1_dest_keys (mat : List (String × PyVal)) (k : String) (v : H5Val)
    (h : (k, v) ∈ (convert_mat_to_hdf5 mat).written) :
    ∃ kv0 ∈ mat, kv0.1 ∉ reservedKeys ∧ k = stripTrailingDigits kv0.1 := by
  rcases written_provenance mat ⟨[], [], none⟩ k v h with h1 | h2
  · simp at h1
  · exact h2

/-- C1, counterexample to the original claim: the reserved metadata name
`__header__` does appear as a destination key, for the source container
`{"__header__1": np.array([5])}`. -/
theorem c1_counterexample :
    "__header__" ∈ (convert_mat_to_hdf5
        [("__header__1", PyVal.numArr [1] [5])]).written.map (fun p => p.1)
      ∧ "__header__" ∈ reservedKeys := by decide

/-- C1, witness for the amended theorem at a concrete input. -/
theorem c1_dest_keys_witness :
    (("abc", H5Val.numData [1] [3])
        ∈ (convert_mat_to_hdf5 [("abc12", PyVal.numArr [1] [3])]).written)
      ∧ ∃ kv0 ∈ [("abc12", PyVal.numArr [1] [3])],
          kv0.1 ∉ reservedKeys ∧ "abc" = stripTrailingDigits kv0.1 :=
  ⟨by decide, c1_dest_keys _ "abc" (H5Val.numData [1] [3]) (by decide)⟩

/-- C2, counterexample: in the specification's worked scenario the claimed
destination key `songName` is never created (only the trailing digit run is
stripped, so `song01Name1` maps to `song01Name`). -/
theorem c2_counterexample :
    "songName" ∉ (convert_mat_to_hdf5 scenarioC2).written.map (fun p => p.1) := by decide

/-- C2 (amended): the scenario's source container converts to exactly the
destination container `{"song": [[1.0,2.0],[3.0,4.0]],
"song01Name": [b"alpha", b"beta"]}` — the text entry is written under
`song01Name`, not `songName` — with no diagnostics and no abort. -/
theorem c2_scenario :
    convert_mat_to_hdf5 scenarioC2 =
      ⟨[("song", H5Val.numData [2, 2] [1, 2, 3, 4]),
        ("song01Name", H5Val.bytesArr [2] ["alpha", "beta"])], [], none⟩ := by decide

/-- C3, counterexample to the original claim: a valid length-1 wrapper
around a non-ascii text makes the byte-string re-encoding raise
`UnicodeEncodeError` (the cast uses the ascii codec), so no dataset of N
entries is produced for that array. -/
theorem c3_counterexample :
    convert_strings_to_utf8 [PyVal.objArr [PyVal.strVal "é"]] = none := by decide

/-- C3 (amended): a nested text array whose N elements are all valid
length-1 wrappers around ascii-encodable texts flattens and re-encodes to a
one-dimensional byte-string dataset of exactly its N wrapped texts, in the
original order. -/
theorem c3_flatten_order (ss : List String) (h : ∀ s ∈ ss, isAsciiStr s = true) :
    convert_strings_to_utf8 (ss.map (fun s => PyVal.objArr [PyVal.strVal s]))
      = some ([ss.length], ss) := by
  unfold convert_strings_to_utf8
  rw [flattenFirst_wrapped]
  simpa using npArrayS_strVal ss h

/-- C3, witness at a concrete input. -/
theorem c3_flatten_order_witness :
    (∀ s ∈ ["alpha", "beta"], isAsciiStr s = true) ∧
      convert_strings_to_utf8
          (["alpha", "beta"].map (fun s => PyVal.objArr [PyVal.strVal s]))
        = some ([2], ["alpha", "beta"]) :=
  ⟨by decide, c3_flatten_order ["alpha", "beta"] (by decide)⟩

/-- C5: every numeric-array entry of the source container whose key is not
reserved is, provided the conversion runs to completion, stored in the
destination under the mapped key with exactly the same shape and the same
element data (copied verbatim, no re-encoding). -/
theorem c5_numeric_preserved (mat : List (String × PyVal)) (k0 : String) (sh : List Nat)
    (d : List Int) (hmem : (k0, PyVal.numArr sh d) ∈ mat) (hk : k0 ∉ reservedKeys)
    (hok : (convert_mat_to_hdf5 mat).ok = true) :
    (stripTrailingDigits k0, H5Val.numData sh d) ∈ (convert_mat_to_hdf5 mat).written :=
  c5_gen mat ⟨[], [], none⟩ k0 sh d hmem hk hok

/-- C5, witness at a concrete input. -/
theorem c5_numeric_preserved_witness :
    (("song01", PyVal.numArr [2] [1, 2]) ∈ [("song01", PyVal.numArr [2] [1, 2])]) ∧
      ("song01" ∉ reservedKeys) ∧
      ((convert_mat_to_hdf5 [("song01", PyVal.numArr [2] [1, 2])]).ok = true) ∧
      (stripTrailingDigits "song01", H5Val.numData [2] [1, 2])
        ∈ (convert_mat_to_hdf5 [("song01", PyVal.numArr [2] [1, 2])]).written :=
  ⟨List.mem_cons_self _ _, by decide, by decide,
    c5_numeric_preserved _ "song01" [2] [1, 2] (List.mem_cons_self _ _)
      (by decide) (by decide)⟩

/-- C6, counterexample to the original claim: the all-digit key `123` maps
to the empty string, but the empty destination name is NOT accepted and used
as-is — h5py refuses the empty dataset name, nothing is written, and the
file conversion aborts with a `ValueError`. -/
theorem c6_counterexample :
    convert_mat_to_hdf5 [("123", PyVal.numArr [1] [7])]
      = ⟨[], [], some (PyErr.valueError h5CreateMsg)⟩ := by decide

/-- C6 (amended): the mapped destination key equals the source key with its
maximal trailing run of decimal digits removed (a key with no trailing
digits is unchanged), and for a non-empty result the dataset is created
under that name; a key consisting entirely of digits maps to the empty
string, which is not accepted: dataset creation under the empty name fails
and the entry aborts the conversion of the file with a `ValueError`. -/
theorem c6_key_transform (key : String) (u t : List Char) (sh : List Nat) (d : List Int)
    (hk : key ∉ reservedKeys) (hs : key.toList = u ++ t)
    (ht : ∀ c ∈ t, Char.isDigit c = true)
    (hu : ∀ c ∈ u.getLast?, Char.isDigit c = false) :
    stripTrailingDigits key = String.mk u ∧
      (u ≠ [] → (convert_mat_to_hdf5 [(key, PyVal.numArr sh d)]).written
        = [(String.mk u, H5Val.numData sh d)]) ∧
      (u = [] → convert_mat_to_hdf5 [(key, PyVal.numArr sh d)]
        = ⟨[], [], some (PyErr.valueError h5CreateMsg)⟩) := by
  have heq := stripTrailingDigits_eq key u t hs ht hu
  refine ⟨heq, ?_, ?_⟩
  · intro hne
    have hne2 : stripTrailingDigits key ≠ "" := by
      rw [heq]
      intro hcon
      exact hne (congrArg String.toList hcon)
    rw [convert_singleton_numArr key sh d hk hne2, heq]
  · intro hcon
    subst hcon
    exact convert_singleton_numArr_empty key sh d hk heq

/-- C6, witness: `abc12` is written under `abc`; the all-digit key `123`
maps to the empty string and the file conversion fails instead of storing a
dataset under it. -/
theorem c6_key_transform_witness :
    ("abc12" ∉ reservedKeys) ∧ ("123" ∉ reservedKeys) ∧
      (convert_mat_to_hdf5 [("abc12", PyVal.numArr [1] [7])]).written
        = [("abc", H5Val.numData [1] [7])] ∧
      convert_mat_to_hdf5 [("123", PyVal.numArr [1] [7])]
        = ⟨[], [], some (PyErr.valueError h5CreateMsg)⟩ := by
  have h1 := c6_key_transform "abc12" ['a', 'b', 'c'] ['1', '2'] [1] [7] (by decide)
    (by decide) (by decide) (by intro c hc; simp at hc; subst hc; decide)
  have h2 := c6_key_transform "123" [] ['1', '2', '3'] [1] [7] (by decide) (by decide)
    (by decide) (by intro c hc; simp at hc)
  exact ⟨by decide, by decide, h1.2.1 (by decide), h2.2.2 rfl⟩

/-- C7: the source selector fails with the path-not-found error when the
path does not exist and with the no-input error when no matching files are
found; the two messages are distinct; and any such selector failure is
caught at the outermost level, printed as a single `Error: <message>` line,
with the run returning normally and no destination file written. -/
theorem c7_error_handling (fs : FS) (lm : LoadMat) (source destination : String) :
    (fs.pathExists source = false → get_mat_files fs lm source = .error notFoundMsg) ∧
      (fs.pathExists source = true → selectFiles fs lm source = []
        → get_mat_files fs lm source = .error noInputMsg) ∧
      notFoundMsg ≠ noInputMsg ∧
      (∀ msg, get_mat_files fs lm source = .error msg →
        main fs lm source destination = ⟨[], ["Error: " ++ msg], false⟩) := by
  refine ⟨?_, ?_, by decide, ?_⟩
  · intro h; simp [get_mat_files, h]
  · intro h1 h2; simp [get_mat_files, h1, h2]
  · intro msg h; unfold main; rw [h]

/-- C7, witness: both failures exercised on concrete filesystems. -/
theorem c7_error_handling_witness :
    get_mat_files fsMissing lmEmpty "data" = .error notFoundMsg ∧
      main fsMissing lmEmpty "data" "out" = ⟨[], ["Error: " ++ notFoundMsg], false⟩ ∧
      get_mat_files fsEmptyDir lmEmpty "data" = .error noInputMsg ∧
      main fsEmptyDir lmEmpty "data" "out" = ⟨[], ["Error: " ++ noInputMsg], false⟩ := by
  have h1 := c7_error_handling fsMissing lmEmpty "data" "out"
  have h2 := c7_error_handling fsEmptyDir lmEmpty "data" "out"
  have e1 : get_mat_files fsMissing lmEmpty "data" = .error notFoundMsg := h1.1 rfl
  have e2 : get_mat_files fsEmptyDir lmEmpty "data" = .error noInputMsg := h2.2.1 rfl rfl
  exact ⟨e1, h1.2.2.2 notFoundMsg e1, e2, h2.2.2.2 noInputMsg e2⟩

/-- C8, counterexample to the original claim: a bytes-dtype ndarray —
neither an object-dtype array, nor a numeric array, nor a text scalar — is
not skipped: the `elif` branch accepts any ndarray and writes it verbatim as
a dataset. -/
theorem c8_counterexample :
    convert_mat_to_hdf5 [("k", PyVal.sArr [1] ["a"])]
      = ⟨[("k", H5Val.bytesArr [1] ["a"])], [], none⟩ := by decide

/-- C8 (amended): an entry whose value is neither an ndarray (of any dtype)
nor a text scalar is skipped silently: the whole conversion result —
datasets, diagnostics and completion — is exactly as if the entry were not in
the source container at all.  (Other ndarrays are not skipped: a bytes-dtype
array is written verbatim, and a text-dtype array aborts the file's
conversion with an uncaught `TypeError`.) -/
theorem c8_silent_skip (pre post : List (String × PyVal)) (key : String) (v : PyVal)
    (h : unrecognizedVal v = true) :
    convert_mat_to_hdf5 (pre ++ (key, v) :: post) = convert_mat_to_hdf5 (pre ++ post) := by
  unfold convert_mat_to_hdf5
  rw [List.foldl_append, List.foldl_append, List.foldl_cons,
      processEntry_unrecognized _ key v h]

/-- C8, witness at a concrete input. -/
theorem c8_silent_skip_witness :
    (unrecognizedVal (PyVal.intVal 3) = true) ∧
      convert_mat_to_hdf5 ([("a", PyVal.numArr [1] [1])] ++ ("b", PyVal.intVal 3) :: [])
        = convert_mat_to_hdf5 ([("a", PyVal.numArr [1] [1])] ++ []) :=
  ⟨by decide, c8_silent_skip [("a", PyVal.numArr [1] [1])] [] "b" (PyVal.intVal 3) (by decide)⟩

/-- C9: the conversion is deterministic — equal source containers give equal
conversion results, and one run converted into two different destination
directories writes files with identical contents and prints identical
output. -/
theorem c9_deterministic (fs : FS) (lm : LoadMat) (src d1 d2 : String)
    (m1 m2 : List (String × PyVal)) (hm : m1 = m2) :
    convert_mat_to_hdf5 m1 = convert_mat_to_hdf5 m2 ∧
      (main fs lm src d1).writtenFiles.map (fun p => p.2)
        = (main fs lm src d2).writtenFiles.map (fun p => p.2) ∧
      (main fs lm src d1).output = (main fs lm src d2).output := by
  refine ⟨hm ▸ rfl, ?_, ?_⟩ <;>
    · unfold main
      cases hg : get_mat_files fs lm src with
      | error msg => rfl
      | ok files =>
          dsimp only
          rw [(mat_to_hdf5_dest_invariant files d1 d2).2]
          cases hb : (mat_to_hdf5 d2 files).2 with
          | none => simp [(mat_to_hdf5_dest_invariant files d1 d2).1]
          | some e => cases e <;> simp [(mat_to_hdf5_dest_invariant files d1 d2).1]

/-- C9, witness at a concrete input. -/
theorem c9_deterministic_witness :
    convert_mat_to_hdf5 [("a", PyVal.strVal "x")] = convert_mat_to_hdf5 [("a", PyVal.strVal "x")] ∧
      (main fsEmptyDir lmEmpty "s" "d1").writtenFiles.map (fun p => p.2)
        = (main fsEmptyDir lmEmpty "s" "d2").writtenFiles.map (fun p => p.2) ∧
      (main fsEmptyDir lmEmpty "s" "d1").output = (main fsEmptyDir lmEmpty "s" "d2").output :=
  c9_deterministic fsEmptyDir lmEmpty "s" "d1" "d2" _ _ rfl

/-- C10: a source key that equals a reserved metadata name only after digit
stripping is not filtered out as metadata — the reserved-key test uses the
original key — and its (numeric) value is written under the stripped,
reserved-looking name. -/
theorem c10_reserved_after_strip (key : String) (sh : List Nat) (d : List Int)
    (h1 : key ∉ reservedKeys) (h2 : stripTrailingDigits key ∈ reservedKeys) :
    (convert_mat_to_hdf5 [(key, PyVal.numArr sh d)]).written
      = [(stripTrailingDigits key, H5Val.numData sh d)] := by
  have hne : stripTrailingDigits key ≠ "" := by
    intro he
    rw [he] at h2
    exact absurd h2 (by decide)
  rw [convert_singleton_numArr key sh d h1 hne]

/-- C10, witness: the key `__version__2` is converted and written as
`__version__`. -/
theorem c10_reserved_after_strip_witness :
    ("__version__2" ∉ reservedKeys) ∧
      (stripTrailingDigits "__version__2" ∈ reservedKeys) ∧
      (convert_mat_to_hdf5 [("__version__2", PyVal.numArr [1] [4])]).written
        = [(stripTrailingDigits "__version__2", H5Val.numData [1] [4])] :=
  ⟨by decide, by decide, c10_reserved_after_strip "__version__2" [1] [4] (by decide) (by decide)⟩

end MatToHdf5
